import Mathlib

/-!
Verification of the `create-bolt-plugin` scaffolding engine.

The engine (src/index.ts) maps a validated answer record to a fixed,
ordered list of (relative path, content) artifacts and writes them
sequentially.  We embed the planning logic as pure Lean functions:
`plan` mirrors `createPluginFiles` (its decision logic, with the file
writes abstracted into the returned artifact list), `generatePluginSource`
and `generatePluginTypes` mirror the source-stub renderers, and
`renderJson` mirrors `JSON.stringify(x, null, 2)` as used by
`fs.writeJSON` (fields holding `undefined` are dropped).
-/

/-- Plugin category: the `type` answer, one of `ui`, `middleware`, `hybrid`. -/
inductive PluginType where
  | ui
  | middleware
  | hybrid
deriving DecidableEq, Repr

/-- The validated answer record collected by the prompts
(`PluginAnswers` in src/index.ts).  `slots` and `middlewarePoints` are
`Option`s: the corresponding questions are skipped (leaving the field
`undefined`) when the category makes them inapplicable. -/
structure PluginAnswers where
  name : String
  type : PluginType
  slots : Option (List String)
  middlewarePoints : Option (List String)
  typescript : Bool
deriving DecidableEq, Repr

/-- The name validation applied at collection time: `^[a-z0-9-]+$`. -/
def validName (s : String) : Bool :=
  !s.data.isEmpty && s.data.all (fun c => c.isLower || c.isDigit || c == '-')

/-- A well-formed answer record as produced by the interactive collector:
the name matches the validation pattern, the `slots` answer exists exactly
when the slots question was asked (category not middleware), and the
`middlewarePoints` answer exists exactly when that question was asked
(category not ui). -/
def ValidAnswers (a : PluginAnswers) : Prop :=
  validName a.name = true ∧
  (a.slots.isSome = true ↔ a.type ≠ PluginType.middleware) ∧
  (a.middlewarePoints.isSome = true ↔ a.type ≠ PluginType.ui)

instance (a : PluginAnswers) : Decidable (ValidAnswers a) := by
  unfold ValidAnswers; infer_instance

/-- JSON values as they occur in the generated structured files.  Object
fields carry `Option Json`: a `none` value models a JavaScript field whose
value is `undefined`, which `JSON.stringify` omits from the output. -/
inductive Json where
  | str : String → Json
  | bool : Bool → Json
  | arr : List Json → Json
  | obj : List (String × Option Json) → Json

/-- Escape a character as inside a JSON string literal. -/
def jsonEscapeChar (c : Char) : String :=
  if c = '"' then "\\\""
  else if c = '\\' then "\\\\"
  else if c = '\n' then "\\n"
  else String.singleton c

/-- Render a string as a JSON string literal. -/
def jsonQuote (s : String) : String :=
  "\"" ++ String.join (s.data.map jsonEscapeChar) ++ "\""

/-- A run of `n` spaces. -/
def indentStr (n : Nat) : String := String.mk (List.replicate n ' ')

mutual

/-- `JSON.stringify(v, null, 2)` at indentation level `ind`:
two-space indented pretty printing, object fields with `undefined`
(`none`) values omitted. -/
def renderJson : Nat → Json → String
  | _, .str s => jsonQuote s
  | _, .bool b => if b then "true" else "false"
  | ind, .arr xs =>
    match xs with
    | [] => "[]"
    | _ :: _ =>
      "[\n" ++ String.intercalate ",\n" (renderArrItems (ind + 2) xs) ++
        "\n" ++ indentStr ind ++ "]"
  | ind, .obj fs =>
    match renderObjItems (ind + 2) fs with
    | [] => "\x7b\x7d"
    | item :: items =>
      "\x7b\n" ++ String.intercalate ",\n" (item :: items) ++
        "\n" ++ indentStr ind ++ "\x7d"

/-- Rendered lines for the elements of a JSON array. -/
def renderArrItems : Nat → List Json → List String
  | _, [] => []
  | ind, x :: xs => (indentStr ind ++ renderJson ind x) :: renderArrItems ind xs

/-- Rendered lines for the fields of a JSON object, skipping fields whose
value is `undefined`. -/
def renderObjItems : Nat → List (String × Option Json) → List String
  | _, [] => []
  | ind, (_, none) :: fs => renderObjItems ind fs
  | ind, (k, some v) :: fs =>
    (indentStr ind ++ jsonQuote k ++ ": " ++ renderJson ind v) ::
      renderObjItems ind fs

end

/-- The bytes `fs.writeJSON(path, x, \x7b spaces: 2 \x7d)` writes:
the pretty-printed JSON followed by a newline. -/
def writeJSONContent (j : Json) : String := renderJson 0 j ++ "\n"

/-- Is the key emitted (present with a defined value) in a JSON object? -/
def jsonFieldPresent (j : Json) (k : String) : Bool :=
  match j with
  | .obj fs => fs.any (fun f => f.1 == k && f.2.isSome)
  | _ => false

/-- Look up the (defined) value of a key in a JSON object. -/
def jsonGet (j : Json) (k : String) : Option Json :=
  match j with
  | .obj fs => (fs.filterMap (fun f => if f.1 == k then f.2 else none)).head?
  | _ => none

/-- Join lines with a newline terminating each line. -/
def joinLines (ls : List String) : String :=
  String.join (ls.map (fun l => l ++ "\n"))

/-- The packaging script template (`packJs` in `createPluginFiles`).  The
template literal begins and ends with a newline; the generated script
keeps its own template literals (backticks and dollar-brace placeholders)
verbatim because they are escaped in the source. -/
def packJs : String := joinLines [
  "",
  "const AdmZip = require(\x27adm-zip\x27);",
  "const path = require(\x27path\x27);",
  "const fs = require(\x27fs\x27);",
  "const pkg = require(\x27../package.json\x27);",
  "",
  "async function packPlugin() \x7b",
  "    const zip = new AdmZip();",
  "    const manifest = require(\x27../plugin.json\x27);",
  "    const outputFile = \x60$\x7b pkg.name \x7d-$\x7b pkg.version \x7d.zip\x60;",
  "",
  "    // Add files specified in package.json \x27files\x27 array",
  "    for (const file of pkg.files) \x7b",
  "        if (fs.existsSync(file)) \x7b",
  "            zip.addLocalFile(file);",
  "        \x7d else \x7b",
  "            console.warn(\x60Warning: File $\x7b file \x7d specified in package.json \x27files\x27 does not exist\x60);",
  "        \x7d",
  "    \x7d",
  "",
  "    // Create the zip file",
  "    zip.writeZip(outputFile);",
  "    console.log(\x60Plugin packed successfully: $\x7b outputFile \x7d\x60);",
  "\x7d",
  "",
  "packPlugin().catch(console.error);"]

/-- The string form of the `type` answer as it appears in the manifest. -/
def pluginTypeString : PluginType → String
  | .ui => "ui"
  | .middleware => "middleware"
  | .hybrid => "hybrid"

/-- The manifest object written to `plugin.json`.  `slots` and
`middlewarePoints` are passed through from the answers unchanged; a
skipped answer is an `undefined` field. -/
def manifestJson (a : PluginAnswers) : Json :=
  .obj [
    ("id", some (.str a.name)),
    ("version", some (.str "1.0.0")),
    ("type", some (.str (pluginTypeString a.type))),
    ("entryPoint", some (.str "dist/index.js")),
    ("permissions", some (.arr [])),
    ("slots", a.slots.map (fun xs => Json.arr (xs.map Json.str))),
    ("middlewarePoints", a.middlewarePoints.map (fun xs => Json.arr (xs.map Json.str)))]

/-- The `scripts.build` command: the two inline ternary branch literals of
`createPluginFiles`, selected by the `typescript` answer. -/
def buildCommand (ts : Bool) : String :=
  if ts then
    "esbuild src/index.tsx --bundle --external:react --external:react-dom --outfile=dist/index.js --platform=browser --format=esm --minify"
  else
    "esbuild src/index.jsx --bundle --external:react --external:react-dom --outfile=dist/index.js --platform=browser --format=esm --minify"

/-- The `scripts.watch` command: the two inline ternary branch literals of
`createPluginFiles`, selected by the `typescript` answer. -/
def watchCommand (ts : Bool) : String :=
  if ts then
    "esbuild src/index.tsx --bundle --external:react --external:react-dom --outfile=dist/index.js --platform=browser --format=esm --watch"
  else
    "esbuild src/index.jsx --bundle --external:react --external:react-dom --outfile=dist/index.js --platform=browser --format=esm --watch"

/-- The build descriptor object written to `package.json`. -/
def packageJsonVal (a : PluginAnswers) : Json :=
  .obj [
    ("name", some (.str a.name)),
    ("version", some (.str "1.0.0")),
    ("main", some (.str "dist/index.js")),
    ("scripts", some (.obj [
      ("build", some (.str (buildCommand a.typescript))),
      ("watch", some (.str (watchCommand a.typescript))),
      ("type-check", some (.str (if a.typescript then "tsc --noEmit" else "echo \"No type checking needed\""))),
      ("prepack", some (.str "npm run build")),
      ("pack", some (.str "node scripts/pack.js"))])),
    ("dependencies", some (.obj [
      ("react", some (.str "^18.2.0")),
      ("react-dom", some (.str "^18.2.0"))])),
    ("devDependencies", some (.obj (
      [("esbuild", some (.str "^0.19.0")),
       ("adm-zip", some (.str "^0.5.10"))] ++
      (if a.typescript then
        [("typescript", some (.str "^5.0.0")),
         ("@types/node", some (.str "^20.0.0")),
         ("@types/react", some (.str "^18.2.0")),
         ("@types/react-dom", some (.str "^18.2.0"))]
       else [])))),
    ("files", some (.arr [.str "dist/index.js", .str "plugin.json", .str "README.md"]))]

/-- The type-check configuration object written to `tsconfig.json` when
the `typescript` answer is true. -/
def tsConfigVal : Json :=
  .obj [
    ("compilerOptions", some (.obj [
      ("target", some (.str "es2020")),
      ("module", some (.str "esnext")),
      ("strict", some (.bool true)),
      ("esModuleInterop", some (.bool true)),
      ("skipLibCheck", some (.bool true)),
      ("forceConsistentCasingInFileNames", some (.bool true)),
      ("outDir", some (.str "./dist")),
      ("declaration", some (.bool true)),
      ("jsx", some (.str "react")),
      ("moduleResolution", some (.str "node")),
      ("lib", some (.arr [.str "dom", .str "dom.iterable", .str "esnext"])),
      ("noEmit", some (.bool true))])),
    ("include", some (.arr [.str "src"])),
    ("exclude", some (.arr [.str "node_modules", .str "dist"]))]

/-- Modelled from the spec: the fixed shared type-definition block
exported as `pluginTypeDefs` by `src/plugin-lib-types.ts`, a file of this
repository that is not among the provided sources.  The spec only states
that it is a fixed (answer-independent) block of type declarations for
the plugin capability contracts, so its exact bytes are represented by an
arbitrary fixed string; no theorem below depends on its contents, only on
its being a constant. -/
def pluginTypeDefs : String :=
  "// Shared core type definitions (CoreAPI and related contracts)\n"

/-- The capability-contract block appended to the type-definitions file
when the `typescript` answer is true (`generatePluginTypes`, typed
branch).  The template literal begins with a newline and ends with a
blank line. -/
def typedTypesBlock : String := joinLines [
  "",
  "export interface PluginContext\x7b",
  "    api: CoreAPI;",
  "\x7d",
  "",
  "export interface UIPluginContext \x7b",
  "    slot: string;",
  "    api: CoreAPI;",
  "\x7d",
  "",
  "export interface MiddlewareContext \x7b",
  "    point: string;",
  "    data: any;",
  "    api: CoreAPI;",
  "    next: (data: any) => Promise<any>;",
  "\x7d",
  "",
  "export type UIPluginMount = (context: UIPluginContext) => Promise<ReactElement>; ",
  "export type MiddlewareProcess = (context: MiddlewareContext) => Promise<any>;",
  "",
  "export interface UIPlugin \x7b",
  "    mount: UIPluginMount;",
  "    unmount?: () => Promise<void>;",
  "\x7d",
  "",
  "export interface MiddlewarePlugin \x7b",
  "    process: MiddlewareProcess;",
  "\x7d",
  "",
  "export interface HybridPlugin extends UIPlugin, MiddlewarePlugin \x7b\x7d",
  "",
  "export type Plugin = UIPlugin | MiddlewarePlugin | HybridPlugin;",
  "",
  "export type CreatePlugin = (context: PluginContext) => Plugin;",
  ""]

/-- `generatePluginTypes`: the shared block, plus the capability-contract
block when the `typescript` answer is true. -/
def generatePluginTypes (a : PluginAnswers) : String :=
  pluginTypeDefs ++ (if a.typescript then typedTypesBlock else "")

/-- The import block of the generated entry file, typed variant. -/
def tsImportBlock : String :=
  "import React, \x7b ReactElement \x7d from \x27react\x27;\n" ++
  "import \x7b PluginContext, UIPluginContext, MiddlewareContext, CreatePlugin \x7d from \x27./types\x27;"

/-- The import block of the generated entry file, untyped variant. -/
def jsImportBlock : String :=
  "import React from \x27react\x27;"

/-- The `mount`/`unmount` fragment of the generated entry file, emitted
when the category is not middleware (`generatePluginSource`).  The inner
template literal starts with a newline and ends with a newline plus four
spaces. -/
def uiCapabilityBlock (ts : Bool) : String :=
  "\n    mount: async (context" ++ (if ts then ": UIPluginContext" else "") ++
  ")" ++ (if ts then ": Promise<ReactElement>" else "") ++ " => \x7b\n" ++
  "      return (\n" ++
  "        <div className=\"p-4\">\n" ++
  "          <h2 className=\"text-lg font-bold\">Plugin UI</h2>\n" ++
  "          <p>This is a sample plugin UI for slot: \x7bcontext.slot\x7d</p>\n" ++
  "        </div>\n" ++
  "      );\n" ++
  "    \x7d,\n" ++
  "    unmount: async (slot" ++ (if ts then ": string" else "") ++ ") => \x7b\n" ++
  "      // Cleanup code\n" ++
  "    \x7d,\n" ++
  "    "

/-- The `process` fragment of the generated entry file, emitted when the
category is not ui (`generatePluginSource`).  The inner template literal
starts with a newline and ends right after the comma. -/
def mwCapabilityBlock (ts : Bool) : String :=
  "\n    process: async (context" ++ (if ts then ": MiddlewareContext" else "") ++
  ") => \x7b\n" ++
  "      const \x7b data, next \x7d = context;\n" ++
  "      // Modify data here\n" ++
  "      return next(data);\n" ++
  "    \x7d,"

/-- `generatePluginSource`: the entry source stub, assembled from
the import block, the factory declaration (annotated in typed mode) and
the two conditional capability fragments. -/
def generatePluginSource (a : PluginAnswers) : String :=
  (if a.typescript then tsImportBlock else jsImportBlock) ++
  "\n\nconst createPlugin" ++ (if a.typescript then ": CreatePlugin" else "") ++
  " = (options" ++ (if a.typescript then ": PluginContext" else "") ++
  ") => \x7b\n  return \x7b\n    " ++
  (if a.type ≠ PluginType.middleware then uiCapabilityBlock a.typescript else "") ++
  "\n    " ++
  (if a.type ≠ PluginType.ui then mwCapabilityBlock a.typescript else "") ++
  "\n  \x7d;\n\x7d\nexport default createPlugin;"

/-- One planned file: a path relative to the project root directory, and
the exact bytes to write there. -/
structure Artifact where
  path : String
  content : String
deriving DecidableEq, Repr

/-- The artifact planner: the file writes of `createPluginFiles`, in
source order, as (relative path, content) pairs.  Directory creation
(`ensureDir`) is idempotent bookkeeping for the parents of these paths
and carries no content, so it is not an artifact. -/
def plan (a : PluginAnswers) : List Artifact :=
  [⟨"plugin.json", writeJSONContent (manifestJson a)⟩,
   ⟨"scripts/pack.js", packJs⟩,
   ⟨"README.md", "# " ++ a.name ++ "\n\nA plugin for bolt.diy"⟩,
   ⟨"package.json", writeJSONContent (packageJsonVal a)⟩] ++
  (if a.typescript then [⟨"tsconfig.json", writeJSONContent tsConfigVal⟩] else []) ++
  (if a.typescript then [⟨"src/types.ts", generatePluginTypes a⟩] else []) ++
  [⟨"src/index." ++ (if a.typescript then "tsx" else "jsx"), generatePluginSource a⟩]

/-- The first artifact content planned at a given path. -/
def findPath (l : List Artifact) (p : String) : Option String :=
  (l.filterMap (fun art => if art.path == p then some art.content else none)).head?

/-- The emitter: writes the artifacts in order, one at a time, through a
write capability `ok` (true = the write succeeds).  Mirrors the
sequential awaits of `createPluginFiles`: a failing write rejects the
whole run, so no later artifact is attempted; already-written artifacts
stay in place.  Returns the artifacts actually written and, on failure,
the offending path. -/
def emitArtifacts (ok : Artifact → Bool) : List Artifact → List Artifact × Option String
  | [] => ([], none)
  | a :: rest =>
    if ok a then
      let r := emitArtifacts ok rest
      (a :: r.1, r.2)
    else ([], some a.path)

/-- Does `pat` occur at the head of `cs`? -/
def matchesAt : List Char → List Char → Bool
  | [], _ => true
  | _ :: _, [] => false
  | p :: ps, c :: cs => p == c && matchesAt ps cs

/-- Does `pat` occur anywhere in `cs`? -/
def occursIn (pat : List Char) : List Char → Bool
  | [] => matchesAt pat []
  | c :: cs => matchesAt pat (c :: cs) || occursIn pat cs

/-- Substring test on strings. -/
def strOccurs (pat s : String) : Bool := occursIn pat.data s.data

set_option maxRecDepth 100000

/-- Helper: the planned artifact paths depend only on the `typescript`
answer. -/
lemma plan_paths_eq (a : PluginAnswers) :
    (plan a).map (fun art => art.path) =
      if a.typescript then
        ["plugin.json", "scripts/pack.js", "README.md", "package.json",
         "tsconfig.json", "src/types.ts", "src/index.tsx"]
      else
        ["plugin.json", "scripts/pack.js", "README.md", "package.json",
         "src/index.jsx"] := by
  obtain ⟨n, t, s, m, b⟩ := a
  cases b <;> rfl

/-- Helper: the packaging script is planned at `scripts/pack.js` with the
fixed template content, for every answer record. -/
lemma findPath_pack_script (a : PluginAnswers) :
    findPath (plan a) "scripts/pack.js" = some packJs := by
  obtain ⟨n, t, s, m, b⟩ := a
  cases b <;> rfl

/-- C1: planning is a pure, deterministic function of the validated
answer record: two runs on byte-identical answers plan byte-identical
(relative path, content) pairs for every artifact. -/
theorem c1_plan_deterministic (a b : PluginAnswers)
    (_hv : ValidAnswers a) (h : a = b) : plan a = plan b := by
  rw [h]

/-- Witness for C1 at a concrete valid record. -/
theorem c1_plan_deterministic_witness :
    plan ⟨"my-plugin", PluginType.ui, some ["app-header"], none, true⟩ =
      plan ⟨"my-plugin", PluginType.ui, some ["app-header"], none, true⟩ :=
  c1_plan_deterministic _ _ (by decide) rfl

/-- C2: in the emitted manifest of a valid record, the `slots` field is
present iff the category is not middleware, and `middlewarePoints` is
present iff the category is not ui (an `undefined` field is dropped by
the JSON writer, hence absent). -/
theorem c2_manifest_field_presence (a : PluginAnswers) (hv : ValidAnswers a) :
    (jsonFieldPresent (manifestJson a) "slots" = true ↔
      a.type ≠ PluginType.middleware) ∧
    (jsonFieldPresent (manifestJson a) "middlewarePoints" = true ↔
      a.type ≠ PluginType.ui) := by
  obtain ⟨n, t, s, m, b⟩ := a
  obtain ⟨-, hs, hm⟩ := hv
  constructor
  · rw [← hs]
    cases s <;> cases m <;> exact Iff.rfl
  · rw [← hm]
    cases s <;> cases m <;> exact Iff.rfl

/-- Witness for C2 at a concrete valid record. -/
theorem c2_manifest_field_presence_witness :
    (jsonFieldPresent (manifestJson ⟨"my-plugin", PluginType.ui, some ["app-header"], none, true⟩) "slots" = true ↔
      PluginAnswers.type ⟨"my-plugin", PluginType.ui, some ["app-header"], none, true⟩ ≠ PluginType.middleware) ∧
    (jsonFieldPresent (manifestJson ⟨"my-plugin", PluginType.ui, some ["app-header"], none, true⟩) "middlewarePoints" = true ↔
      PluginAnswers.type ⟨"my-plugin", PluginType.ui, some ["app-header"], none, true⟩ ≠ PluginType.ui) :=
  c2_manifest_field_presence _ (by decide)

/-- Helper: the generated entry source only reads the category and the
typing answer, never the name or the slot/point lists. -/
lemma generatePluginSource_only_type (n : String) (t : PluginType)
    (s m : Option (List String)) (b : Bool) :
    generatePluginSource ⟨n, t, s, m, b⟩ =
      generatePluginSource ⟨"", t, none, none, b⟩ := rfl

/-- C3: the generated entry file exposes exactly the capabilities of its
category: ui gives `mount` and `unmount` and no `process`; middleware
gives `process` and neither `mount` nor `unmount`; hybrid gives all
three (membership read off as occurrence of the object-literal field
markers in the generated text). -/
theorem c3_entry_capability_surface (a : PluginAnswers) :
    (a.type = PluginType.ui →
      strOccurs "\n    mount: async" (generatePluginSource a) = true ∧
      strOccurs "\n    unmount: async" (generatePluginSource a) = true ∧
      strOccurs "\n    process: async" (generatePluginSource a) = false) ∧
    (a.type = PluginType.middleware →
      strOccurs "\n    process: async" (generatePluginSource a) = true ∧
      strOccurs "\n    mount: async" (generatePluginSource a) = false ∧
      strOccurs "\n    unmount: async" (generatePluginSource a) = false) ∧
    (a.type = PluginType.hybrid →
      strOccurs "\n    mount: async" (generatePluginSource a) = true ∧
      strOccurs "\n    unmount: async" (generatePluginSource a) = true ∧
      strOccurs "\n    process: async" (generatePluginSource a) = true) := by
  obtain ⟨n, t, s, m, b⟩ := a
  rw [generatePluginSource_only_type]
  cases t <;> cases b <;>
    refine ⟨fun h => ?_, fun h => ?_, fun h => ?_⟩ <;>
    first
      | exact PluginType.noConfusion h
      | decide

/-- Witness for C3 at a concrete ui record. -/
theorem c3_entry_capability_surface_witness :
    strOccurs "\n    mount: async"
        (generatePluginSource ⟨"my-plugin", PluginType.ui, some ["app-header"], none, true⟩) = true ∧
    strOccurs "\n    unmount: async"
        (generatePluginSource ⟨"my-plugin", PluginType.ui, some ["app-header"], none, true⟩) = true ∧
    strOccurs "\n    process: async"
        (generatePluginSource ⟨"my-plugin", PluginType.ui, some ["app-header"], none, true⟩) = false :=
  (c3_entry_capability_surface ⟨"my-plugin", PluginType.ui, some ["app-header"], none, true⟩).1 rfl

/-- C4 counterexample: with name `my-plugin`, category ui, slots
`app-header`, the untyped run plans `src/index.jsx`, a path the typed run
does not plan, so the typed path set is not a superset of the untyped
one. -/
theorem c4_counterexample :
    "src/index.jsx" ∈
        (plan ⟨"my-plugin", PluginType.ui, some ["app-header"], none, false⟩).map
          (fun art => art.path) ∧
    "src/index.jsx" ∉
        (plan ⟨"my-plugin", PluginType.ui, some ["app-header"], none, true⟩).map
          (fun art => art.path) := by
  decide

/-- C4 amended: for every fixed name, category, slots and middleware
points, the typed run plans every untyped-run path except the entry file
(whose extension changes from `jsx` to `tsx`), and strictly adds the
type-check-configuration artifact and the type-definitions artifact. -/
theorem c4_amended_typed_artifact_paths (n : String) (c : PluginType)
    (s m : Option (List String)) :
    (((plan ⟨n, c, s, m, false⟩).map (fun art => art.path)).filter
        (fun p => p != "src/index.jsx")).all
      (fun p => ((plan ⟨n, c, s, m, true⟩).map (fun art => art.path)).contains p)
      = true ∧
    ((plan ⟨n, c, s, m, true⟩).map (fun art => art.path)).contains "tsconfig.json" = true ∧
    ((plan ⟨n, c, s, m, false⟩).map (fun art => art.path)).contains "tsconfig.json" = false ∧
    ((plan ⟨n, c, s, m, true⟩).map (fun art => art.path)).contains "src/types.ts" = true ∧
    ((plan ⟨n, c, s, m, false⟩).map (fun art => art.path)).contains "src/types.ts" = false ∧
    ((plan ⟨n, c, s, m, false⟩).map (fun art => art.path)).contains "src/index.jsx" = true ∧
    ((plan ⟨n, c, s, m, true⟩).map (fun art => art.path)).contains "src/index.jsx" = false ∧
    ((plan ⟨n, c, s, m, true⟩).map (fun art => art.path)).contains "src/index.tsx" = true := by
  have hT : (plan ⟨n, c, s, m, true⟩).map (fun art => art.path) =
      ["plugin.json", "scripts/pack.js", "README.md", "package.json",
       "tsconfig.json", "src/types.ts", "src/index.tsx"] :=
    (plan_paths_eq _).trans rfl
  have hU : (plan ⟨n, c, s, m, false⟩).map (fun art => art.path) =
      ["plugin.json", "scripts/pack.js", "README.md", "package.json",
       "src/index.jsx"] :=
    (plan_paths_eq _).trans rfl
  rw [hT, hU]
  decide

/-- C5: the packaging-script artifact has the same bytes for every pair
of answer records: it is the fixed template, independent of name,
category, slots, middleware points and the typing choice. -/
theorem c5_pack_script_invariant (a b : PluginAnswers) :
    findPath (plan a) "scripts/pack.js" = findPath (plan b) "scripts/pack.js" ∧
    findPath (plan a) "scripts/pack.js" = some packJs := by
  rw [findPath_pack_script, findPath_pack_script]
  exact ⟨rfl, rfl⟩

/-- C6 counterexample: in typed mode the watch command is not the build
command with a flag added; the build command contains the minify flag
while the watch command does not, so watch replaces a flag rather than
adding one. -/
theorem c6_counterexample :
    watchCommand true ≠ buildCommand true ++ " --watch" ∧
    strOccurs "--minify" (buildCommand true) = true ∧
    strOccurs "--minify" (watchCommand true) = false := by
  decide

/-- Characterization following the amended claim's words (compared with
the command literals transcribed from the source): the shared command
stem, keyed only by the typing mode and differing only in the source-file
extension, to which one final flag is appended. -/
def specCommandStem (ts : Bool) : String :=
  "esbuild src/index." ++ (if ts then "tsx" else "jsx") ++
  " --bundle --external:react --external:react-dom --outfile=dist/index.js --platform=browser --format=esm "

/-- C6 amended: for each typing mode the build and watch commands are
fixed strings keyed only by the mode, differing between modes only in
the source-file extension; within a mode the watch command equals the
build command with the final minify flag replaced by the
continuous-rebuild flag. -/
theorem c6_amended_build_watch_commands (ts : Bool) :
    buildCommand ts = specCommandStem ts ++ "--minify" ∧
    watchCommand ts = specCommandStem ts ++ "--watch" := by
  cases ts <;> exact ⟨rfl, rfl⟩

/-- C7: on the record name `my-plugin`, category ui, slots
`app-header`, typing on, the plan yields exactly these 7 file artifacts
(including `src/types.ts` and `src/index.tsx`); the manifest carries
`slots = ["app-header"]` and no `middlewarePoints` field; and the build
script is the typed command variant, naming the `tsx` entry source. -/
theorem c7_example_scenario :
    (plan ⟨"my-plugin", PluginType.ui, some ["app-header"], none, true⟩).length = 7 ∧
    (plan ⟨"my-plugin", PluginType.ui, some ["app-header"], none, true⟩).map
        (fun art => art.path) =
      ["plugin.json", "scripts/pack.js", "README.md", "package.json",
       "tsconfig.json", "src/types.ts", "src/index.tsx"] ∧
    jsonGet (manifestJson ⟨"my-plugin", PluginType.ui, some ["app-header"], none, true⟩)
        "slots" = some (Json.arr [Json.str "app-header"]) ∧
    jsonFieldPresent
        (manifestJson ⟨"my-plugin", PluginType.ui, some ["app-header"], none, true⟩)
        "middlewarePoints" = false ∧
    (jsonGet (packageJsonVal ⟨"my-plugin", PluginType.ui, some ["app-header"], none, true⟩)
        "scripts").bind (fun j => jsonGet j "build") =
      some (Json.str (buildCommand true)) ∧
    strOccurs "src/index.tsx" (buildCommand true) = true :=
  ⟨rfl, rfl, rfl, rfl, rfl, by decide⟩

/-- Helper: the emitter writes artifacts strictly in order; if every
write before position `k` succeeds and the write at `k` fails, exactly
the first `k` artifacts are written, nothing after `k` is attempted, and
the failing path is surfaced. -/
lemma emitArtifacts_failfast (ok : Artifact → Bool) (l : List Artifact) (k : Nat)
    (hk : k < l.length)
    (hpre : ∀ i, i < k → ok (l.getD i ⟨"", ""⟩) = true)
    (hfail : ok (l.getD k ⟨"", ""⟩) = false) :
    emitArtifacts ok l = (l.take k, some ((l.getD k ⟨"", ""⟩)).path) := by
  induction l generalizing k with
  | nil => exact absurd hk (Nat.not_lt_zero k)
  | cons a rest ih =>
    cases k with
    | zero =>
      rw [List.getD_cons_zero] at hfail ⊢
      simp [emitArtifacts, hfail]
    | succ k =>
      have ha : ok a = true := by
        have h0 := hpre 0 (Nat.succ_pos k)
        rwa [List.getD_cons_zero] at h0
      have hpre2 : ∀ i, i < k → ok (rest.getD i ⟨"", ""⟩) = true := by
        intro i hi
        have := hpre (i + 1) (Nat.succ_lt_succ hi)
        rwa [List.getD_cons_succ] at this
      have ih2 := ih k (Nat.lt_of_succ_lt_succ hk) hpre2
        (by rwa [List.getD_cons_succ] at hfail)
      rw [List.getD_cons_succ] at hfail ⊢
      simp [emitArtifacts, ha, ih2]

/-- C8: during emission of a planned artifact list, writes happen
strictly in order; if the write at position `k` fails while all earlier
ones succeed, exactly the artifacts before `k` are written, no artifact
at or after `k` is written, and the failing path is surfaced to the
caller. -/
theorem c8_emission_failfast (a : PluginAnswers) (ok : Artifact → Bool) (k : Nat)
    (hk : k < (plan a).length)
    (hpre : ∀ i, i < k → ok ((plan a).getD i ⟨"", ""⟩) = true)
    (hfail : ok ((plan a).getD k ⟨"", ""⟩) = false) :
    emitArtifacts ok (plan a) =
      ((plan a).take k, some (((plan a).getD k ⟨"", ""⟩)).path) :=
  emitArtifacts_failfast ok (plan a) k hk hpre hfail

/-- Witness for C8: a write capability failing exactly on `README.md`
(position 2 of the plan) writes only the two earlier artifacts and
surfaces that path. -/
theorem c8_emission_failfast_witness :
    emitArtifacts (fun art => !(art.path == "README.md"))
        (plan ⟨"demo", PluginType.ui, some [], none, false⟩) =
      ((plan ⟨"demo", PluginType.ui, some [], none, false⟩).take 2,
       some (((plan ⟨"demo", PluginType.ui, some [], none, false⟩).getD 2 ⟨"", ""⟩)).path) :=
  c8_emission_failfast ⟨"demo", PluginType.ui, some [], none, false⟩
    (fun art => !(art.path == "README.md")) 2 (by decide) (by decide) (by decide)

/-- C9: the type-definitions file content is independent of category,
slots and middleware points: any two records with typing on get
byte-identical `src/types.ts` contents. -/
theorem c9_types_content_independent (a b : PluginAnswers)
    (ha : a.typescript = true) (hb : b.typescript = true) :
    generatePluginTypes a = generatePluginTypes b := by
  simp [generatePluginTypes, ha, hb]

/-- Witness for C9 on two records differing in every other answer. -/
theorem c9_types_content_independent_witness :
    generatePluginTypes ⟨"aaa", PluginType.ui, some ["app-header"], none, true⟩ =
      generatePluginTypes ⟨"bbb", PluginType.middleware, none, some ["beforeUserInput"], true⟩ :=
  c9_types_content_independent _ _ rfl rfl

/-- C10: the plan carries a `src/types.ts` artifact exactly when typing
is on, and then its content is always the fixed shared type-definition
block followed by the capability-contract block (the renderer's untyped
branch, which would omit the capability block, is unreachable from the
planner). -/
theorem c10_types_artifact_reachability (a : PluginAnswers) :
    findPath (plan a) "src/types.ts" =
      if a.typescript then some (pluginTypeDefs ++ typedTypesBlock) else none := by
  obtain ⟨n, t, s, m, b⟩ := a
  cases b <;> rfl
